import Mathlib

/-
  Verification of the fyrtur-motor-board firmware core (src/Core/Src/motor.c).

  Shallow embedding conventions:
  * The C globals of motor.c are collected into the structure MotorState.
  * uint8_t / uint16_t / uint32_t values are modelled as Nat; wrap-around is
    written explicitly (% 256, % 65536, u32sub) at the points where the C
    arithmetic can actually wrap.  int32_t values (location, target_location,
    the debug counters) are modelled as Int; signed overflow is undefined
    behaviour in C and is not modelled.
  * Board constants that live in main.h (not part of this tree) are fields of
    the structure Consts and stay universally quantified.
  * Values read from hardware (get_voltage, get_motor_current) and values
    produced by the floating-point helpers location_to_position100 /
    position100_to_location are supplied by the environment record Env; the
    theorems below never depend on these values.
  * HAL_GetTick() is passed in as an explicit argument `now`.
-/

namespace Fyrtur

/-- motor_status from motor.h; the header in this tree lists Stopped, Moving
and Error, and motor.c additionally uses Stopping and CalibratingEndPoint. -/
inductive motor_status where
  | Stopped
  | Moving
  | Error
  | Stopping
  | CalibratingEndPoint
deriving DecidableEq

/-- motor_direction from motor.h. -/
inductive motor_direction where
  | None
  | Up
  | Down
deriving DecidableEq

/-- motor_command from motor.h. -/
inductive motor_command where
  | NoCommand
  | MotorUp
  | MotorDown
  | Stop
deriving DecidableEq

/-- Board-specific constants defined in main.h (outside this tree). -/
structure Consts where
  gearRatio : Nat
  HALL_SENSOR_GRACE_PERIOD : Nat
  HALL_SENSOR_TIMEOUT : Nat
  HALL_SENSOR_TIMEOUT_WHILE_STOPPING : Nat
  ENDPOINT_CALIBRATION_PERIOD : Nat

/-- The global mutable state of motor.c, plus the hardware registers and the
EEPROM emulation that motor.c writes through. -/
structure MotorState where
  status : motor_status
  direction : motor_direction
  target_location : Int
  location : Int
  full_curtain_length : Nat
  max_curtain_length : Nat
  minimum_voltage : Nat
  default_speed : Nat
  target_speed : Nat
  curr_pwm : Nat
  endpoint_calibration_started_timestamp : Nat
  calibrating : Bool
  auto_calibration : Nat
  hall_sensor_1_idle_time : Nat
  hall_sensor_1_ticks : Nat
  hall_sensor_2_ticks : Nat
  hall_sensor_1_interval : Nat
  movement_started_timestamp : Nat
  rotor_position : Int
  min_slowdown_speed : Nat
  slowdown_factor : Nat
  command : motor_command
  dir_error : Int
  sensor_ticks_while_stopped : Int
  sensor_ticks_while_calibrating_endpoint : Int
  saved_hall_sensor_1_ticks : Nat
  saved_hall_sensor_2_ticks : Nat
  /-- TIM1->CCR1 compare register -/
  ccr1 : Nat
  /-- TIM1->CCR4 compare register -/
  ccr4 : Nat
  /-- HIGH_1_GATE pin level -/
  high1 : Bool
  /-- HIGH_2_GATE pin level -/
  high2 : Bool
  /-- LOW1_PWM_CHANNEL running -/
  low1_pwm_on : Bool
  /-- LOW2_PWM_CHANNEL running -/
  low2_pwm_on : Bool
  /-- emulated EEPROM contents, indexed by eeprom_var_t (0..4) -/
  eeprom : Nat → Nat
  /-- log of EE_WriteVariable calls (var, value), newest first -/
  eeprom_writes : List (Nat × Nat)

/-- Environment inputs: hardware reads and the results of the floating-point
position helpers of motor.c (location_to_position100 and
position100_to_location compute with `float`; their results are treated as
inputs, since no claim depends on their values). -/
structure Env where
  /-- get_voltage() -/
  voltage : Nat
  /-- get_motor_current() -/
  motor_current : Nat
  /-- (uint8_t)location_to_position100() as stored into the status reply -/
  pos100_byte : Nat
  /-- (int)(location_to_position100()*256) of the extended status reply -/
  pos256 : Nat
  version_major : Nat
  version_minor : Nat
  /-- position100_to_location((float)cmd2) for the 0xDD go-to command -/
  pos_to_loc : Nat → Nat
  /-- position100_to_location(pos/16.0) for the 0x10 extended go-to command,
  applied to the 12-bit payload -/
  ext_pos_to_loc : Nat → Nat

/-- uint32_t subtraction (HAL_GetTick() - timestamp). -/
def u32sub (a b : Nat) : Nat := (a % 2 ^ 32 + 2 ^ 32 - b % 2 ^ 32) % 2 ^ 32

/-- truncation to uint8_t -/
def u8 (n : Nat) : Nat := n % 256

/-- int32_t stored into a uint8_t (two's complement truncation) -/
def byteI (x : Int) : Nat := (x % 256).toNat

/-- arithmetic right shift by 8 of an int32_t (gcc semantics: floor division) -/
def sar8 (x : Int) : Int := Int.fdiv x 256

/-- DEG_TO_LOCATION(x) = GEAR_RATIO * 4 * x / 360 -/
def deg_to_location (c : Consts) (x : Nat) : Nat := c.gearRatio * 4 * x / 360

/-- calculate_battery() from motor.c -/
def calculate_battery : Nat := 0x12

/-- Numeric value of the motor_status enum as placed in the extended status
reply byte.  motor.h in this tree predates the Stopping/CalibratingEndPoint
states, so the exact codes of those two come from a newer header that is not
in the tree; no claim below depends on these values. -/
def statusCode : motor_status → Nat
  | .Stopped => 0
  | .Moving => 1
  | .Error => 2
  | .Stopping => 3
  | .CalibratingEndPoint => 4

/-- get_rpm() from motor.c: 60*1000/GEAR_RATIO/hall_sensor_1_interval/2 when
the interval is known, else 0. -/
def get_rpm (c : Consts) (s : MotorState) : Nat :=
  if s.hall_sensor_1_interval ≠ 0 then
    60 * 1000 / c.gearRatio / s.hall_sensor_1_interval / 2
  else 0

/-- motor_stop() from motor.c. -/
def motor_stop (s : MotorState) : MotorState :=
  { s with
    low1_pwm_on := false
    low2_pwm_on := false
    high1 := false
    high2 := false
    ccr1 := 0
    ccr4 := 0
    status := .Stopped
    direction := .None
    curr_pwm := 0
    sensor_ticks_while_stopped := 0
    saved_hall_sensor_1_ticks := s.hall_sensor_1_ticks
    saved_hall_sensor_2_ticks := s.hall_sensor_2_ticks
    hall_sensor_1_interval := 0
    hall_sensor_1_ticks := 0
    hall_sensor_2_ticks := 0
    hall_sensor_1_idle_time := 0
    target_speed := 0 }

/-- The slowdown tail of process_location (the "If motor is rotating, slow it
down when approaching the target location" block), applied to the state after
the location update. -/
def slowdown (s1 : MotorState) : MotorState × Nat :=
  if s1.direction ≠ .None then
    let distance := (s1.target_location - s1.location).natAbs
    if distance < s1.target_speed * s1.slowdown_factor / 8 then
      let ns := distance * 8 / s1.slowdown_factor
      let ns := if ns < s1.min_slowdown_speed then s1.min_slowdown_speed else ns
      ({ s1 with
          status := .Stopping
          target_speed := if ns < s1.target_speed then ns else s1.target_speed }, 0)
    else (s1, 0)
  else (s1, 0)

/-- process_location() from motor.c; the Nat component is the C return value. -/
def process_location (s : MotorState) (sensor_direction : motor_direction) :
    MotorState × Nat :=
  if s.calibrating then (s, 0)
  else if sensor_direction = .Up then
    let s1 := { s with location := s.location - 1 }
    if s.direction = .Up ∧ s1.target_location ≠ -1 ∧
        s1.location - 1 ≤ s1.target_location then
      (motor_stop s1, 1)
    else slowdown s1
  else if sensor_direction = .Down then
    let s1 := { s with location := s.location + 1 }
    if s.direction = .Down ∧ s1.location + 1 ≥ s1.target_location then
      (motor_stop s1, 1)
    else slowdown s1
  else slowdown s

/-- The first block of motor_adjust_rpm ("if (speed < target_speed)"):
raise the duty cycle when the rpm is below the setpoint.  curr_pwm is a
uint8_t, so each increment is written with its mod-256 wrap. -/
def adjust_raise (speed : Nat) (s : MotorState) : MotorState :=
  if speed < s.target_speed then
    if s.curr_pwm < 254 then
      let p := (s.curr_pwm + 1) % 256
      let p := if s.target_speed - speed > 2 then (p + 1) % 256 else p
      if s.direction = .Up then { s with curr_pwm := p, ccr4 := p }
      else { s with curr_pwm := p, ccr1 := p }
    else s
  else s

/-- The second block of motor_adjust_rpm ("if (speed > target_speed)"):
lower the duty cycle when the rpm is above the setpoint.  Each decrement of
the uint8_t curr_pwm is written with its mod-256 wrap. -/
def adjust_lower (speed : Nat) (s : MotorState) : MotorState :=
  if speed > s.target_speed then
    if s.curr_pwm > 1 then
      let p := (s.curr_pwm + 255) % 256
      let p := if speed - s.target_speed > 2 then (p + 255) % 256 else p
      let p := if speed - s.target_speed > 4 then (p + 255) % 256 else p
      if s.direction = .Up then { s with curr_pwm := p, ccr4 := p }
      else { s with curr_pwm := p, ccr1 := p }
    else s
  else s

/-- motor_adjust_rpm() from motor.c (the 10 ms regulator): the two blocks run
in sequence on the same snapshot of `speed`. -/
def motor_adjust_rpm (c : Consts) (s : MotorState) : MotorState :=
  if s.status = .Moving ∨ s.status = .Stopping then
    let speed := get_rpm c s
    adjust_lower speed (adjust_raise speed s)
  else s

/-- motor_stopped() from motor.c.  current_status / current_direction snapshot
the pre-stop values; in this embedding motor_stop does not mutate s, so the
snapshots are simply the fields of s. -/
def motor_stopped (now : Nat) (s : MotorState) : MotorState :=
  if s.status ≠ .Stopped then
    let s2 := motor_stop s
    if s.status = .Moving then
      if s.direction = .Up then
        { s2 with
            status := .CalibratingEndPoint
            sensor_ticks_while_calibrating_endpoint := 0
            endpoint_calibration_started_timestamp := now }
      else { s2 with status := .Error }
    else if s.status = .Stopping then { s2 with status := .Stopped }
    else s2
  else s

/-- motor_stall_check() from motor.c (the 1 ms tick handler). -/
def motor_stall_check (c : Consts) (now : Nat) (s : MotorState) : MotorState :=
  if s.status = .Moving ∨ s.status = .Stopping then
    let s := { s with hall_sensor_1_idle_time := s.hall_sensor_1_idle_time + 1 }
    if u32sub now s.movement_started_timestamp > c.HALL_SENSOR_GRACE_PERIOD then
      if s.hall_sensor_1_idle_time > c.HALL_SENSOR_TIMEOUT then
        if s.status = .Stopping ∧
            s.hall_sensor_1_idle_time < c.HALL_SENSOR_TIMEOUT_WHILE_STOPPING then
          s
        else { motor_stopped now s with hall_sensor_1_idle_time := 0 }
      else s
    else s
  else if s.status = .CalibratingEndPoint then
    if u32sub now s.endpoint_calibration_started_timestamp >
        c.ENDPOINT_CALIBRATION_PERIOD then
      { s with status := .Stopped, calibrating := false, location := 0 }
    else s
  else s

/-- INITIAL_PWM from motor.c -/
def INITIAL_PWM : Nat := 60

/-- motor_start_common() from motor.c; `now` is HAL_GetTick() after the 10 ms
settling delay. -/
def motor_start_common (now : Nat) (motor_speed : Nat) (s : MotorState) :
    MotorState :=
  let s := motor_stop s
  { s with
      movement_started_timestamp := now
      target_speed := motor_speed
      curr_pwm := INITIAL_PWM
      status := .Moving }

/-- motor_up() from motor.c. -/
def motor_up (now : Nat) (motor_speed : Nat) (s : MotorState) : MotorState :=
  let s := motor_start_common now motor_speed s
  { s with low2_pwm_on := true, ccr4 := INITIAL_PWM, high1 := true,
           direction := .Up }

/-- motor_down() from motor.c. -/
def motor_down (now : Nat) (motor_speed : Nat) (s : MotorState) : MotorState :=
  let s := motor_start_common now motor_speed s
  { s with low1_pwm_on := true, ccr1 := INITIAL_PWM, high2 := true,
           direction := .Down }

/-- motor_process() from motor.c (main-loop mailbox drain). -/
def motor_process (now : Nat) (s : MotorState) : MotorState :=
  if s.command = .MotorUp then
    { motor_up now s.default_speed s with command := .NoCommand }
  else if s.command = .MotorDown then
    { motor_down now s.default_speed s with command := .NoCommand }
  else if s.command = .Stop then
    { motor_stop s with command := .NoCommand }
  else s

/-- motor_write_setting() from motor.c: writes go to EEPROM only while
stopped and only when the value changes.  EE_ReadVariable is modelled as the
always-successful read of the emulated contents. -/
def motor_write_setting (s : MotorState) (var value : Nat) : MotorState :=
  if s.status = .Stopped then
    if s.eeprom var ≠ value then
      { s with
          eeprom := fun j => if j = var then value else s.eeprom j
          eeprom_writes := (var, value) :: s.eeprom_writes }
    else s
  else s

/-- pointwise update of the tx_buffer -/
def upd (f : Nat → Nat) (i v : Nat) : Nat → Nat :=
  fun j => if j = i then v else f j

/-- Result of handle_command: the new global state, the tx_buffer contents and
the value stored through *tx_bytes (none when the command sends no reply).
The C function also returns the constant 1, which is not modelled. -/
structure HCResult where
  st : MotorState
  tx : Nat → Nat
  tx_bytes : Option Nat

/-- The values of the `case` labels of the switch statement of
handle_command, in source order. -/
def switchLabels : List Nat :=
  [0xcccc, 0x0add, 0x0aee, 0x0a0d, 0x0a0e, 0x0acc,
   0xfad1, 0xfad2, 0xfad3, 0xfad4, 0xfacc, 0xfaee, 0xfa00, 0xfada,
   0xccdc, 0xccd1, 0xccd2, 0xccd0, 0xccde, 0xccdf]

/-- The switch statement of handle_command: `some` when a case matched
(cmd_handled stays 1), `none` for the default branch (cmd_handled = 0). -/
def switch_cases (c : Consts) (env : Env) (s : MotorState) (cmd : Nat)
    (tx : Nat → Nat) : Option HCResult :=
  if cmd = 0xcccc then -- CMD_GET_STATUS
    let t := upd tx 2 0xd8
    let t := upd t 3 (u8 calculate_battery)
    let t := upd t 4 (u8 (env.voltage / 16))
    let t := upd t 5 (u8 (get_rpm c s))
    let t := upd t 6 (u8 env.pos100_byte)
    let t := upd t 7 (t 3 ^^^ t 4 ^^^ t 5 ^^^ t 6)
    some ⟨s, t, some 8⟩
  else if cmd = 0x0add then -- CMD_UP
    some ⟨{ s with target_location := -1, command := .MotorUp }, tx, none⟩
  else if cmd = 0x0aee then -- CMD_DOWN
    some ⟨{ s with target_location := (s.max_curtain_length : Int),
                   command := .MotorDown }, tx, none⟩
  else if cmd = 0x0a0d then -- CMD_UP_17
    let t0 : Int := s.location - (deg_to_location c 17 : Nat)
    let t0 := if t0 < 0 then 0 else t0
    some ⟨{ s with target_location := t0, command := .MotorUp }, tx, none⟩
  else if cmd = 0x0a0e then -- CMD_DOWN_17
    let t0 : Int := s.location + (deg_to_location c 17 : Nat)
    -- int32_t compared with uint32_t: both operands convert to uint32_t
    let t0 := if (t0 % 2 ^ 32).toNat > s.max_curtain_length then
                (s.max_curtain_length : Int) else t0
    some ⟨{ s with target_location := t0, command := .MotorDown }, tx, none⟩
  else if cmd = 0x0acc then -- CMD_STOP
    some ⟨{ s with command := .Stop }, tx, none⟩
  else if cmd = 0xfad1 then -- CMD_OVERRIDE_UP_90
    some ⟨{ s with target_location := s.location - (deg_to_location c 90 : Nat),
                   command := .MotorUp }, tx, none⟩
  else if cmd = 0xfad2 then -- CMD_OVERRIDE_DOWN_90
    some ⟨{ s with target_location := s.location + (deg_to_location c 90 : Nat),
                   command := .MotorDown }, tx, none⟩
  else if cmd = 0xfad3 then -- CMD_OVERRIDE_UP_6
    some ⟨{ s with target_location := s.location - (deg_to_location c 6 : Nat),
                   command := .MotorUp }, tx, none⟩
  else if cmd = 0xfad4 then -- CMD_OVERRIDE_DOWN_6
    some ⟨{ s with target_location := s.location + (deg_to_location c 6 : Nat),
                   command := .MotorDown }, tx, none⟩
  else if cmd = 0xfacc then -- CMD_SET_FULL_CURTAIN_LENGTH, falls through
    let s := motor_write_setting s 1 (s.location % 65536).toNat
    let s := { s with full_curtain_length := (s.location % 2 ^ 32).toNat }
    let s := motor_write_setting s 0 (s.location % 65536).toNat
    some ⟨{ s with max_curtain_length := (s.location % 2 ^ 32).toNat }, tx, none⟩
  else if cmd = 0xfaee then -- CMD_SET_MAX_CURTAIN_LENGTH
    let s := motor_write_setting s 0 (s.location % 65536).toNat
    some ⟨{ s with max_curtain_length := (s.location % 2 ^ 32).toNat }, tx, none⟩
  else if cmd = 0xfa00 then -- CMD_RESET_CURTAIN_LENGTH
    let s := motor_write_setting s 0 (s.full_curtain_length % 65536)
    some ⟨{ s with max_curtain_length := s.full_curtain_length,
                   calibrating := true }, tx, none⟩
  else if cmd = 0xfada then -- CMD_EXT_OVERRIDE_DOWN
    some ⟨{ s with
              target_location := s.location + (deg_to_location c (360 * 5) : Nat),
              command := .MotorDown }, tx, none⟩
  else if cmd = 0xccdc then -- CMD_EXT_GET_VERSION
    let t := upd tx 0 0x00
    let t := upd t 1 0xff
    let t := upd t 2 0xd0
    let t := upd t 3 (u8 env.version_major)
    let t := upd t 4 (u8 env.version_minor)
    let t := upd t 5 (u8 s.minimum_voltage)
    let t := upd t 6 (u8 s.default_speed)
    let t := upd t 7 (t 3 ^^^ t 4 ^^^ t 5 ^^^ t 6)
    some ⟨s, t, some 8⟩
  else if cmd = 0xccd1 then -- CMD_EXT_DEBUG
    let t := upd tx 0 0x00
    let t := upd t 1 0xff
    let t := upd t 2 0xd2
    let t := upd t 3 0
    let t := upd t 4 (byteI s.dir_error)
    let t := upd t 5 (byteI s.sensor_ticks_while_calibrating_endpoint)
    let t := upd t 6 (byteI s.sensor_ticks_while_stopped)
    let t := upd t 7 0
    let t := upd t 8 (t 3 ^^^ t 4 ^^^ t 5 ^^^ t 6 ^^^ t 7)
    some ⟨s, t, some 9⟩
  else if cmd = 0xccd2 then -- CMD_EXT_SENSOR_DEBUG
    let t := upd tx 0 0x00
    let t := upd t 1 0xff
    let t := upd t 2 0xd3
    let t := upd t 3 (u8 (s.saved_hall_sensor_1_ticks / 256))
    let t := upd t 4 (u8 s.saved_hall_sensor_1_ticks)
    let t := upd t 5 (u8 (s.saved_hall_sensor_2_ticks / 256))
    let t := upd t 6 (u8 s.saved_hall_sensor_2_ticks)
    let t := upd t 7 0
    let t := upd t 8 (t 3 ^^^ t 4 ^^^ t 5 ^^^ t 6 ^^^ t 7)
    some ⟨s, t, some 9⟩
  else if cmd = 0xccd0 then -- CMD_EXT_GET_LOCATION
    let t := upd tx 2 0xd1
    let t := upd t 3 (byteI (sar8 s.location))
    let t := upd t 4 (byteI s.location)
    let t := upd t 5 (byteI (sar8 s.target_location))
    let t := upd t 6 (byteI s.target_location)
    let t := upd t 7 (t 3 ^^^ t 4 ^^^ t 5 ^^^ t 6)
    some ⟨s, t, some 8⟩
  else if cmd = 0xccde then -- CMD_EXT_GET_STATUS
    let t := upd tx 2 0xda
    let t := upd t 3 (u8 (statusCode s.status))
    let t := upd t 4 (u8 env.motor_current)
    let t := upd t 5 (u8 (get_rpm c s))
    let t := upd t 6 (u8 (env.pos256 / 256))
    let t := upd t 7 (u8 env.pos256)
    let t := upd t 8 (t 3 ^^^ t 4 ^^^ t 5 ^^^ t 6 ^^^ t 7)
    some ⟨s, t, some 9⟩
  else if cmd = 0xccdf then -- CMD_EXT_GET_LIMITS
    let t := upd tx 0 0x00
    let t := upd t 1 0xff
    let t := upd t 2 0xdb
    let t := upd t 3 (if s.calibrating then 1 else 0)
    let t := upd t 4 (u8 (s.max_curtain_length / 256))
    let t := upd t 5 (u8 s.max_curtain_length)
    let t := upd t 6 (u8 (s.full_curtain_length / 256))
    let t := upd t 7 (u8 s.full_curtain_length)
    let t := upd t 8 (t 3 ^^^ t 4 ^^^ t 5 ^^^ t 6 ^^^ t 7)
    some ⟨s, t, some 9⟩
  else none

/-- The single-byte-opcode fallthrough chain of handle_command (the body of
the `if (!cmd_handled)` block), in source order. -/
def param_cases (env : Env) (s : MotorState) (cmd1 cmd2 : Nat)
    (tx : Nat → Nat) : HCResult :=
  if cmd1 = 0x20 then -- CMD_EXT_SET_SPEED
    if cmd2 > 1 then
      let s := { s with default_speed := cmd2 }
      ⟨if s.target_speed ≠ 0 then { s with target_speed := cmd2 } else s,
        tx, none⟩
    else ⟨s, tx, none⟩
  else if cmd1 = 0x30 then -- CMD_EXT_SET_DEFAULT_SPEED
    if cmd2 > 0 then
      let s := motor_write_setting s 3 cmd2
      ⟨{ s with default_speed := cmd2 }, tx, none⟩
    else ⟨s, tx, none⟩
  else if cmd1 = 0xdd then -- CMD_GO_TO
    if s.calibrating = false then
      let t : Int := (env.pos_to_loc cmd2 : Nat)
      ⟨{ s with target_location := t,
                command := if t < s.location then .MotorUp else .MotorDown },
        tx, none⟩
    else ⟨s, tx, none⟩
  else if cmd1 &&& 0xf0 = 0x10 then -- CMD_EXT_GO_TO
    if s.calibrating = false then
      let pos := ((cmd1 &&& 0x0f) <<< 8) + cmd2
      let t : Int := (env.ext_pos_to_loc pos : Nat)
      ⟨{ s with target_location := t,
                command := if t < s.location then .MotorUp else .MotorDown },
        tx, none⟩
    else ⟨s, tx, none⟩
  else if cmd1 &&& 0xf0 = 0x50 then -- CMD_EXT_SET_LOCATION
    let loc := ((((cmd1 &&& 0x0f) <<< 8) + cmd2) <<< 1) % 65536
    ⟨{ s with location := (loc : Int), calibrating := false }, tx, none⟩
  else if cmd1 = 0x40 then -- CMD_EXT_SET_MINIMUM_VOLTAGE
    let s := motor_write_setting s 2 cmd2
    ⟨{ s with minimum_voltage := cmd2 }, tx, none⟩
  else if cmd1 = 0x60 then -- CMD_EXT_SET_AUTO_CAL
    let s := motor_write_setting s 4 cmd2
    ⟨{ s with auto_calibration := cmd2 }, tx, none⟩
  else if cmd1 &&& 0xf0 = 0x70 then -- CMD_EXT_GO_TO_LOCATION
    let t : Int := ((((cmd1 &&& 0x0f) <<< 8) + cmd2) <<< 1 : Nat)
    ⟨{ s with target_location := t,
              command := if t < s.location then .MotorUp else .MotorDown },
      tx, none⟩
  else if cmd1 = 0x80 then -- CMD_EXT_SET_SLOWDOWN_FACTOR
    ⟨{ s with slowdown_factor := cmd2 }, tx, none⟩
  else if cmd1 = 0x90 then -- CMD_EXT_SET_MIN_SLOWDOWN_SPEED
    ⟨{ s with min_slowdown_speed := cmd2 }, tx, none⟩
  else ⟨s, tx, none⟩

/-- handle_command() from motor.c.  cmd1 and cmd2 are rx_buffer[3] and
rx_buffer[4]; cmd is the uint16_t (cmd1 << 8) + cmd2. -/
def handle_command (c : Consts) (env : Env) (s : MotorState)
    (cmd1 cmd2 : Nat) (tx : Nat → Nat) : HCResult :=
  let cmd := (cmd1 * 256 + cmd2) % 65536
  (switch_cases c env s cmd tx).getD (param_cases env s cmd1 cmd2 tx)

/-- Feed successive upward Hall edges: the 1-based index of the first call of
process_location(Up) that returns 1, together with the state after it. -/
def firstStop : Nat → MotorState → Option (Nat × MotorState)
  | 0, _ => none
  | fuel + 1, s =>
    let r := process_location s .Up
    if r.2 = 1 then some (1, r.1)
    else
      match firstStop fuel r.1 with
      | some (k, s2) => some (k + 1, s2)
      | none => none

/-! Concrete states and parameters used by the witnesses and counterexamples
below.  The default settings of motor.h/main.h that are relevant here:
DEFAULT_TARGET_SPEED = 18; the remaining numeric choices are arbitrary. -/

/-- an all-zero resting state -/
def base : MotorState where
  status := .Stopped
  direction := .None
  target_location := 0
  location := 0
  full_curtain_length := 0
  max_curtain_length := 0
  minimum_voltage := 0
  default_speed := 0
  target_speed := 0
  curr_pwm := 0
  endpoint_calibration_started_timestamp := 0
  calibrating := false
  auto_calibration := 0
  hall_sensor_1_idle_time := 0
  hall_sensor_1_ticks := 0
  hall_sensor_2_ticks := 0
  hall_sensor_1_interval := 0
  movement_started_timestamp := 0
  rotor_position := -1
  min_slowdown_speed := 0
  slowdown_factor := 0
  command := .NoCommand
  dir_error := 0
  sensor_ticks_while_stopped := 0
  sensor_ticks_while_calibrating_endpoint := 0
  saved_hall_sensor_1_ticks := 0
  saved_hall_sensor_2_ticks := 0
  ccr1 := 0
  ccr4 := 0
  high1 := false
  high2 := false
  low1_pwm_on := false
  low2_pwm_on := false
  eeprom := fun _ => 0
  eeprom_writes := []

/-- concrete board constants for witnesses (gear ratio 64, grace 2000 ms,
stall timeout 300 ms, stopping timeout 500 ms, endpoint settling 1000 ms) -/
def cW : Consts := ⟨64, 2000, 300, 500, 1000⟩

/-- concrete environment for witnesses -/
def envW : Env := ⟨0, 0, 0, 0, 0, 0, fun _ => 0, fun _ => 0⟩

/-- concrete initial tx_buffer for witnesses -/
def txW : Nat → Nat := fun _ => 0

/-- Scenario 1 of the spec: max_curtain_length 1000, location 500,
target_location 200, direction Up, status Moving. -/
def c1_init : MotorState :=
  { base with
      max_curtain_length := 1000
      location := 500
      target_location := 200
      direction := .Up
      status := .Moving
      default_speed := 18
      target_speed := 18
      slowdown_factor := 8
      min_slowdown_speed := 5 }

/-- a moving state one tick above the stop point -/
def c1w : MotorState :=
  { base with
      direction := .Up
      status := .Moving
      location := 201
      target_location := 200 }

/-- a state in the endpoint-settling phase -/
def c2w : MotorState :=
  { base with
      status := .CalibratingEndPoint
      calibrating := true
      location := -3
      endpoint_calibration_started_timestamp := 100 }

/-- a state stalled while moving up -/
def c3w : MotorState :=
  { base with status := .Moving, direction := .Up, location := 7 }

/-- a speed-regulator state two steps below the duty-cycle cap, with the rpm
far below the target -/
def c5_state : MotorState :=
  { base with status := .Moving, direction := .Up, curr_pwm := 253,
              target_speed := 18 }

/-- a state with a known Hall-sensor interval -/
def c8w : MotorState := { base with hall_sensor_1_interval := 3 }

/-- Scenario 3 of the spec: moving down toward target 30, fifteen ticks
away after the next edge, with target_speed 20, slowdown_factor 8 and
min_slowdown_speed 5. -/
def c7w : MotorState :=
  { base with
      status := .Moving
      direction := .Down
      location := 14
      target_location := 30
      target_speed := 20
      slowdown_factor := 8
      min_slowdown_speed := 5 }

/-! ## Helper lemmas -/

theorem slowdown_fst_location (s : MotorState) :
    (slowdown s).1.location = s.location := by
  simp only [slowdown]
  split_ifs <;> rfl

theorem slowdown_fst_target_speed_le (s : MotorState) :
    (slowdown s).1.target_speed ≤ s.target_speed := by
  simp only [slowdown]
  split_ifs <;> simp <;> omega

theorem slowdown_spec (t : MotorState) (hd : t.direction ≠ .None)
    (hdist : (t.target_location - t.location).natAbs <
             t.target_speed * t.slowdown_factor / 8) :
    (slowdown t).1.status = .Stopping ∧
    (slowdown t).1.target_speed =
      (if max ((t.target_location - t.location).natAbs * 8 / t.slowdown_factor)
            t.min_slowdown_speed < t.target_speed then
         max ((t.target_location - t.location).natAbs * 8 / t.slowdown_factor)
           t.min_slowdown_speed
       else t.target_speed) := by
  simp only [slowdown]
  rw [if_pos hd, if_pos hdist]
  refine ⟨rfl, ?_⟩
  show (if (if (t.target_location - t.location).natAbs * 8 / t.slowdown_factor <
            t.min_slowdown_speed then t.min_slowdown_speed
          else (t.target_location - t.location).natAbs * 8 / t.slowdown_factor) <
          t.target_speed then _ else t.target_speed) = _
  split_ifs <;> omega

/-! ## Claims -/

/-- C4: after every call to motor_stop(), both compare registers CCR1 and
CCR4 are 0, both high-side gates are de-asserted, status = Stopped,
direction = None, curr_pwm = 0, target_speed = 0, and
hall_sensor_1_interval, hall_sensor_1_ticks, hall_sensor_2_ticks and
hall_sensor_1_idle_time are all cleared to 0. -/
theorem motor_stop_postcondition (s : MotorState) :
    (motor_stop s).ccr1 = 0 ∧ (motor_stop s).ccr4 = 0 ∧
    (motor_stop s).high1 = false ∧ (motor_stop s).high2 = false ∧
    (motor_stop s).status = .Stopped ∧ (motor_stop s).direction = .None ∧
    (motor_stop s).curr_pwm = 0 ∧ (motor_stop s).target_speed = 0 ∧
    (motor_stop s).hall_sensor_1_interval = 0 ∧
    (motor_stop s).hall_sensor_1_ticks = 0 ∧
    (motor_stop s).hall_sensor_2_ticks = 0 ∧
    (motor_stop s).hall_sensor_1_idle_time = 0 :=
  ⟨rfl, rfl, rfl, rfl, rfl, rfl, rfl, rfl, rfl, rfl, rfl, rfl⟩

/-- C2: whenever status = CalibratingEndPoint and the current tick time minus
endpoint_calibration_started_timestamp exceeds ENDPOINT_CALIBRATION_PERIOD,
motor_stall_check sets status := Stopped, calibrating := false and
location := 0, leaving every other field unchanged. -/
theorem stall_check_ends_endpoint_calibration (c : Consts) (now : Nat)
    (s : MotorState) (hst : s.status = .CalibratingEndPoint)
    (ht : u32sub now s.endpoint_calibration_started_timestamp >
          c.ENDPOINT_CALIBRATION_PERIOD) :
    motor_stall_check c now s =
      { s with status := .Stopped, calibrating := false, location := 0 } := by
  simp [motor_stall_check, hst, ht]

/-- C2 witness: with period 1000 ms, a settling phase started at tick 100 is
finished at tick 2000. -/
theorem stall_check_ends_endpoint_calibration_witness :
    motor_stall_check cW 2000 c2w =
      { c2w with status := .Stopped, calibrating := false, location := 0 } :=
  stall_check_ends_endpoint_calibration cW 2000 c2w rfl (by decide)

/-- C3: for every call to motor_stopped() with status not equal to Stopped,
motor_stop() runs first and then, from the snapshotted status and direction:
Moving and Up gives CalibratingEndPoint with the timestamp recorded; Moving
and Down gives Error; Stopping stays Stopped. -/
theorem motor_stopped_transitions (now : Nat) (s : MotorState)
    (h : s.status ≠ .Stopped) :
    (s.status = .Moving → s.direction = .Up →
      motor_stopped now s =
        { motor_stop s with
            status := .CalibratingEndPoint
            sensor_ticks_while_calibrating_endpoint := 0
            endpoint_calibration_started_timestamp := now }) ∧
    (s.status = .Moving → s.direction = .Down →
      motor_stopped now s = { motor_stop s with status := .Error }) ∧
    (s.status = .Stopping →
      motor_stopped now s = { motor_stop s with status := .Stopped }) := by
  refine ⟨fun hm hu => ?_, fun hm hd => ?_, fun hsp => ?_⟩
  · simp [motor_stopped, h, hm, hu]
  · simp [motor_stopped, h, hm, hd]
  · simp [motor_stopped, h, hsp]

/-- C3 witness: an upward stall at tick 5000 enters endpoint calibration. -/
theorem motor_stopped_transitions_witness :
    motor_stopped 5000 c3w =
      { motor_stop c3w with
          status := .CalibratingEndPoint
          sensor_ticks_while_calibrating_endpoint := 0
          endpoint_calibration_started_timestamp := 5000 } :=
  (motor_stopped_transitions 5000 c3w (by decide)).1 rfl rfl

/-- C8: get_rpm returns 60000 / (GEAR_RATIO * 2 * hall_sensor_1_interval)
(integer division) when the interval is positive, and 0 when the interval is
0, so the division is always guarded. -/
theorem get_rpm_guarded (c : Consts) (s : MotorState)
    (hg : 0 < c.gearRatio) :
    (s.hall_sensor_1_interval = 0 → get_rpm c s = 0) ∧
    (0 < s.hall_sensor_1_interval →
      get_rpm c s = 60000 / (c.gearRatio * 2 * s.hall_sensor_1_interval)) := by
  constructor
  · intro h
    simp [get_rpm, h]
  · intro h
    have hne : s.hall_sensor_1_interval ≠ 0 := Nat.pos_iff_ne_zero.mp h
    simp only [get_rpm, ne_eq, hne, not_false_eq_true, if_true]
    rw [Nat.div_div_eq_div_mul, Nat.div_div_eq_div_mul]
    congr 1
    ring

/-- C8 witness: gear ratio 64, interval 3 ms gives 60000 / 384 = 156 rpm. -/
theorem get_rpm_guarded_witness :
    get_rpm cW c8w =
      60000 / (cW.gearRatio * 2 * c8w.hall_sensor_1_interval) :=
  (get_rpm_guarded cW c8w (by decide)).2 (by decide)

/-- C5 counterexample: from curr_pwm = 253 (inside the claimed range 0..254),
one run of the 10 ms regulator with the rpm more than 2 below the target
leaves curr_pwm = 255, outside the claimed range. -/
theorem adjust_rpm_can_reach_255 :
    c5_state.curr_pwm ≤ 254 ∧
    (motor_adjust_rpm cW c5_state).curr_pwm = 255 ∧
    ¬ (motor_adjust_rpm cW c5_state).curr_pwm ≤ 254 := by decide

/-- C5 amended: every execution of motor_adjust_rpm starting from curr_pwm in
[0, 254] leaves curr_pwm in [0, 255] (the 8-bit range); the bound 254 is not
preserved. -/
theorem adjust_rpm_range (c : Consts) (s : MotorState)
    (h : s.curr_pwm ≤ 254) : (motor_adjust_rpm c s).curr_pwm ≤ 255 := by
  have h1 : (adjust_raise (get_rpm c s) s).curr_pwm ≤ 255 := by
    simp only [adjust_raise]
    split_ifs <;> (try simp) <;> omega
  have h2 : ∀ (speed : Nat) (t : MotorState), t.curr_pwm ≤ 255 →
      (adjust_lower speed t).curr_pwm ≤ 255 := by
    intro speed t ht
    simp only [adjust_lower]
    split_ifs <;> (try simp) <;> omega
  simp only [motor_adjust_rpm]
  split_ifs with h0
  · exact h2 _ _ h1
  · omega

/-- C5 amended witness: the counterexample state itself lands on 255. -/
theorem adjust_rpm_range_witness :
    (motor_adjust_rpm cW c5_state).curr_pwm ≤ 255 :=
  adjust_rpm_range cW c5_state (by decide)

set_option maxRecDepth 40000 in
/-- C1: every call of process_location(Up) with calibrating false decrements
location by 1, and when direction = Up, target_location is not -1 and the
decremented location satisfies location - 1 <= target_location, motor_stop
runs (status becomes Stopped) and 1 is returned; moreover, starting from
location 500, target_location 200, direction Up, status Moving, successive
upward edges first return 1 on the 299th edge, leaving location = 201 and
status = Stopped (stop one tick before the target). -/
theorem process_location_up_stop :
    (∀ s : MotorState, s.calibrating = false →
      ((process_location s .Up).1.location = s.location - 1) ∧
      (s.direction = .Up → s.target_location ≠ -1 →
        s.location - 1 - 1 ≤ s.target_location →
        (process_location s .Up).2 = 1 ∧
        (process_location s .Up).1.status = .Stopped)) ∧
    Option.map (fun p => (p.1, p.2.location, p.2.status))
        (firstStop 400 c1_init) = some (299, 201, .Stopped) := by
  constructor
  · intro s hcal
    constructor
    · simp only [process_location, hcal, Bool.false_eq_true, if_false,
        reduceCtorEq]
      split_ifs <;>
        first
          | rfl
          | exact slowdown_fst_location _
          | (exfalso; simp_all)
    · intro hdir htar hle
      simp only [process_location, hcal, Bool.false_eq_true, if_false,
        reduceCtorEq]
      split_ifs <;>
        first
          | exact ⟨rfl, rfl⟩
          | (exfalso; simp_all)
          | exact absurd ⟨hdir, htar, hle⟩ (by assumption)
  · decide

/-- C1 witness: one upward edge at location 201 with target 200 stops the
motor and returns 1. -/
theorem process_location_up_stop_witness :
    ((process_location c1w .Up).1.location = c1w.location - 1) ∧
    (process_location c1w .Up).2 = 1 ∧
    (process_location c1w .Up).1.status = .Stopped := by
  have h := process_location_up_stop.1 c1w rfl
  exact ⟨h.1, h.2 rfl (by decide) (by decide)⟩

/-- C7: process_location never increases target_speed; and in a call that
does not stop the motor, with calibrating false and direction not None, if
the distance from the updated location to the target is below
target_speed * slowdown_factor / 8, then status becomes Stopping and
target_speed becomes max(distance * 8 / slowdown_factor, min_slowdown_speed)
whenever that value is below the current target_speed (and stays unchanged
otherwise). -/
theorem process_location_slowdown (s : MotorState) (sd : motor_direction) :
    (process_location s sd).1.target_speed ≤ s.target_speed ∧
    (s.calibrating = false → (process_location s sd).2 = 0 →
      s.direction ≠ .None →
      ∀ l : Int,
        l = (match sd with
             | .Up => s.location - 1
             | .Down => s.location + 1
             | .None => s.location) →
        (s.target_location - l).natAbs <
            s.target_speed * s.slowdown_factor / 8 →
        (process_location s sd).1.status = .Stopping ∧
        (process_location s sd).1.target_speed =
          (if max ((s.target_location - l).natAbs * 8 / s.slowdown_factor)
                s.min_slowdown_speed < s.target_speed then
             max ((s.target_location - l).natAbs * 8 / s.slowdown_factor)
               s.min_slowdown_speed
           else s.target_speed)) := by
  constructor
  · simp only [process_location]
    split_ifs <;>
      first
        | exact Nat.le_refl _
        | exact Nat.zero_le _
        | exact slowdown_fst_target_speed_le _
  · intro hcal hret hdir l hl hdist
    cases sd with
    | None =>
      dsimp only at hl
      subst hl
      simp only [process_location, hcal, Bool.false_eq_true, if_false,
        reduceCtorEq] at hret ⊢
      exact slowdown_spec s hdir hdist
    | Up =>
      dsimp only at hl
      subst hl
      by_cases hsc : s.direction = .Up ∧ s.target_location ≠ (-1 : Int) ∧
          s.location - 1 - 1 ≤ s.target_location
      · exfalso
        have h1 : (process_location s .Up).2 = 1 := by
          simp only [process_location, hcal, Bool.false_eq_true, if_false,
            reduceCtorEq]
          rw [if_pos hsc, if_pos trivial]
        rw [hret] at h1
        exact absurd h1 (by decide)
      · have hstep : process_location s .Up =
            slowdown { s with location := s.location - 1 } := by
          simp only [process_location, hcal, Bool.false_eq_true, if_false,
            reduceCtorEq]
          rw [if_neg hsc, if_pos trivial]
        rw [hstep]
        exact slowdown_spec _ hdir hdist
    | Down =>
      dsimp only at hl
      subst hl
      by_cases hsc : s.direction = .Down ∧
          s.location + 1 + 1 ≥ s.target_location
      · exfalso
        have h1 : (process_location s .Down).2 = 1 := by
          simp only [process_location, hcal, Bool.false_eq_true, if_false,
            reduceCtorEq]
          rw [if_pos hsc, if_pos trivial]
        rw [hret] at h1
        exact absurd h1 (by decide)
      · have hstep : process_location s .Down =
            slowdown { s with location := s.location + 1 } := by
          simp only [process_location, hcal, Bool.false_eq_true, if_false,
            reduceCtorEq]
          rw [if_neg hsc, if_pos trivial]
        rw [hstep]
        exact slowdown_spec _ hdir hdist

/-- C7 witness: scenario 3 of the spec, distance 15 with target_speed 20,
slowdown_factor 8 and min_slowdown_speed 5: the state enters Stopping and
target_speed drops to max(15, 5) = 15. -/
theorem process_location_slowdown_witness :
    (process_location c7w .Down).1.status = .Stopping ∧
    (process_location c7w .Down).1.target_speed =
      (if max ((c7w.target_location - (c7w.location + 1)).natAbs * 8 /
            c7w.slowdown_factor) c7w.min_slowdown_speed < c7w.target_speed then
         max ((c7w.target_location - (c7w.location + 1)).natAbs * 8 /
           c7w.slowdown_factor) c7w.min_slowdown_speed
       else c7w.target_speed) :=
  (process_location_slowdown c7w .Down).2 rfl (by decide) (by decide)
    (c7w.location + 1) rfl (by decide)

/-! ## Dispatcher lemmas -/

theorem switch_cases_none (c : Consts) (env : Env) (s : MotorState)
    (cmd : Nat) (tx : Nat → Nat) (h : ¬ cmd ∈ switchLabels) :
    switch_cases c env s cmd tx = none := by
  simp only [switchLabels, List.mem_cons, List.not_mem_nil, or_false] at h
  push_neg at h
  obtain ⟨h1, h2, h3, h4, h5, h6, h7, h8, h9, h10,
    h11, h12, h13, h14, h15, h16, h17, h18, h19, h20⟩ := h
  unfold switch_cases
  split_ifs <;> first | rfl | (exfalso; omega)

set_option maxRecDepth 40000 in
theorem land_f0_cases_10 : ∀ n : Nat, n < 256 → n &&& 0xf0 = 0x10 →
    16 ≤ n ∧ n ≤ 31 := by decide

set_option maxRecDepth 40000 in
theorem land_f0_cases_70 : ∀ n : Nat, n < 256 → n &&& 0xf0 = 0x70 →
    112 ≤ n ∧ n ≤ 127 := by decide

set_option maxRecDepth 40000 in
/-- C6: for each of the reply-producing opcodes 0xCCCC, 0xCCDC, 0xCCD1,
0xCCD2, 0xCCD0, 0xCCDE, 0xCCDF, the last emitted byte N of the reply frame
equals the XOR of the payload bytes 3 through N-1 and *tx_bytes is set to
N+1. -/
theorem reply_frame_checksums (c : Consts) (env : Env) (s : MotorState)
    (tx : Nat → Nat) :
    (let r := handle_command c env s 0xcc 0xcc tx
     r.tx_bytes = some 8 ∧ r.tx 7 = r.tx 3 ^^^ r.tx 4 ^^^ r.tx 5 ^^^ r.tx 6) ∧
    (let r := handle_command c env s 0xcc 0xdc tx
     r.tx_bytes = some 8 ∧ r.tx 7 = r.tx 3 ^^^ r.tx 4 ^^^ r.tx 5 ^^^ r.tx 6) ∧
    (let r := handle_command c env s 0xcc 0xd1 tx
     r.tx_bytes = some 9 ∧
     r.tx 8 = r.tx 3 ^^^ r.tx 4 ^^^ r.tx 5 ^^^ r.tx 6 ^^^ r.tx 7) ∧
    (let r := handle_command c env s 0xcc 0xd2 tx
     r.tx_bytes = some 9 ∧
     r.tx 8 = r.tx 3 ^^^ r.tx 4 ^^^ r.tx 5 ^^^ r.tx 6 ^^^ r.tx 7) ∧
    (let r := handle_command c env s 0xcc 0xd0 tx
     r.tx_bytes = some 8 ∧ r.tx 7 = r.tx 3 ^^^ r.tx 4 ^^^ r.tx 5 ^^^ r.tx 6) ∧
    (let r := handle_command c env s 0xcc 0xde tx
     r.tx_bytes = some 9 ∧
     r.tx 8 = r.tx 3 ^^^ r.tx 4 ^^^ r.tx 5 ^^^ r.tx 6 ^^^ r.tx 7) ∧
    (let r := handle_command c env s 0xcc 0xdf tx
     r.tx_bytes = some 9 ∧
     r.tx 8 = r.tx 3 ^^^ r.tx 4 ^^^ r.tx 5 ^^^ r.tx 6 ^^^ r.tx 7) :=
  ⟨⟨rfl, rfl⟩, ⟨rfl, rfl⟩, ⟨rfl, rfl⟩, ⟨rfl, rfl⟩, ⟨rfl, rfl⟩,
   ⟨rfl, rfl⟩, ⟨rfl, rfl⟩⟩

/-- a state with a nonzero default and target speed for the set-speed tests -/
def c9_state : MotorState :=
  { base with default_speed := 18, target_speed := 7 }

/-- C9 counterexample: the set-speed opcode 0x20 with parameter cmd2 = 0 is
ignored; default_speed stays 18 instead of becoming cmd2 = 0 as the claim
states, and target_speed stays 7. -/
theorem set_speed_ignores_small_values :
    (handle_command cW envW c9_state 0x20 0 txW).st.default_speed = 18 ∧
    (handle_command cW envW c9_state 0x20 0 txW).st.target_speed = 7 ∧
    (handle_command cW envW c9_state 0x20 0 txW).st.default_speed ≠ 0 :=
  ⟨rfl, rfl, by decide⟩

/-- C9 amended: the set-speed opcode 0x20 sets default_speed := cmd2 (and
target_speed := cmd2 when target_speed is nonzero, the moving test of the
code) only when cmd2 > 1, never touching non-volatile storage; when
cmd2 <= 1 the command leaves the state unchanged. -/
theorem set_speed_effect (c : Consts) (env : Env) (s : MotorState)
    (cmd2 : Nat) (tx : Nat → Nat) (h2 : cmd2 < 256) :
    (1 < cmd2 →
      (handle_command c env s 0x20 cmd2 tx).st.default_speed = cmd2 ∧
      (s.target_speed ≠ 0 →
        (handle_command c env s 0x20 cmd2 tx).st.target_speed = cmd2) ∧
      (s.target_speed = 0 →
        (handle_command c env s 0x20 cmd2 tx).st.target_speed = 0) ∧
      (handle_command c env s 0x20 cmd2 tx).st.eeprom_writes =
        s.eeprom_writes) ∧
    (cmd2 ≤ 1 → (handle_command c env s 0x20 cmd2 tx).st = s) := by
  have hsw : switch_cases c env s ((0x20 * 256 + cmd2) % 65536) tx = none :=
    switch_cases_none c env s _ tx (by
      simp only [switchLabels, List.mem_cons, List.not_mem_nil, or_false]
      push_neg
      omega)
  simp only [handle_command]
  rw [hsw, Option.getD_none]
  unfold param_cases
  rw [if_pos rfl]
  constructor
  · intro hgt
    rw [if_pos hgt]
    dsimp only
    split_ifs with hts
    · exact ⟨rfl, fun _ => rfl, fun h0 => absurd h0 hts, rfl⟩
    · exact ⟨rfl, fun hne => absurd hne hts, fun h0 => h0, rfl⟩
  · intro hle
    rw [if_neg (by omega)]

/-- C9 amended witness: cmd2 = 5 on a moving state (target_speed = 7) sets
both speeds to 5. -/
theorem set_speed_effect_witness :
    (handle_command cW envW c9_state 0x20 5 txW).st.default_speed = 5 ∧
    (handle_command cW envW c9_state 0x20 5 txW).st.target_speed = 5 := by
  have h := (set_speed_effect cW envW c9_state 5 txW (by decide)).1 (by decide)
  exact ⟨h.1, h.2.1 (by decide)⟩

/-- C10: for the three go-to commands (0xDD go-to-percent, prefix 0x10
extended go-to, prefix 0x70 go-to-location), when accepted, MotorUp is
enqueued exactly when the computed target_location is strictly below the
current location and MotorDown is enqueued otherwise, including when the
target equals the current location; a MotorDown in the mailbox then starts
the motor (motor_process makes status Moving, direction Down). -/
theorem goto_direction_choice (c : Consts) (env : Env) (s : MotorState)
    (cmd1 cmd2 : Nat) (tx : Nat → Nat) (h1 : cmd1 < 256) (h2 : cmd2 < 256) :
    (cmd1 = 0xdd → s.calibrating = false →
      (handle_command c env s cmd1 cmd2 tx).st.target_location =
          (env.pos_to_loc cmd2 : Int) ∧
      (handle_command c env s cmd1 cmd2 tx).st.command =
          (if (env.pos_to_loc cmd2 : Int) < s.location then .MotorUp
           else .MotorDown) ∧
      ((env.pos_to_loc cmd2 : Int) = s.location →
        (handle_command c env s cmd1 cmd2 tx).st.command = .MotorDown)) ∧
    (cmd1 &&& 0xf0 = 0x10 → s.calibrating = false →
      (handle_command c env s cmd1 cmd2 tx).st.target_location =
          (env.ext_pos_to_loc (((cmd1 &&& 0x0f) <<< 8) + cmd2) : Int) ∧
      (handle_command c env s cmd1 cmd2 tx).st.command =
          (if (env.ext_pos_to_loc (((cmd1 &&& 0x0f) <<< 8) + cmd2) : Int) <
              s.location then .MotorUp else .MotorDown)) ∧
    (cmd1 &&& 0xf0 = 0x70 →
      (handle_command c env s cmd1 cmd2 tx).st.target_location =
          (((((cmd1 &&& 0x0f) <<< 8) + cmd2) <<< 1 : Nat) : Int) ∧
      (handle_command c env s cmd1 cmd2 tx).st.command =
          (if (((((cmd1 &&& 0x0f) <<< 8) + cmd2) <<< 1 : Nat) : Int) <
              s.location then .MotorUp else .MotorDown)) ∧
    (∀ (s2 : MotorState) (now : Nat), s2.command = .MotorDown →
      (motor_process now s2).status = .Moving ∧
      (motor_process now s2).direction = .Down) := by
  refine ⟨?_, ?_, ?_, ?_⟩
  · intro hA hcal
    subst hA
    have hsw : switch_cases c env s ((0xdd * 256 + cmd2) % 65536) tx = none :=
      switch_cases_none c env s _ tx (by
        simp only [switchLabels, List.mem_cons, List.not_mem_nil, or_false]
        push_neg
        omega)
    simp only [handle_command]
    rw [hsw, Option.getD_none]
    unfold param_cases
    rw [if_neg (by decide), if_neg (by decide), if_pos rfl, if_pos hcal]
    refine ⟨rfl, rfl, fun heq => ?_⟩
    simp [heq]
  · intro hB hcal
    have hb := land_f0_cases_10 cmd1 h1 hB
    have hsw : switch_cases c env s ((cmd1 * 256 + cmd2) % 65536) tx = none :=
      switch_cases_none c env s _ tx (by
        simp only [switchLabels, List.mem_cons, List.not_mem_nil, or_false]
        push_neg
        omega)
    simp only [handle_command]
    rw [hsw, Option.getD_none]
    unfold param_cases
    rw [if_neg (by omega), if_neg (by omega), if_neg (by omega),
      if_pos hB, if_pos hcal]
    exact ⟨rfl, rfl⟩
  · intro hC
    have hb := land_f0_cases_70 cmd1 h1 hC
    have hsw : switch_cases c env s ((cmd1 * 256 + cmd2) % 65536) tx = none :=
      switch_cases_none c env s _ tx (by
        simp only [switchLabels, List.mem_cons, List.not_mem_nil, or_false]
        push_neg
        omega)
    simp only [handle_command]
    rw [hsw, Option.getD_none]
    unfold param_cases
    rw [if_neg (by omega), if_neg (by omega), if_neg (by omega),
      if_neg (by intro hx; rw [hC] at hx; exact absurd hx (by decide)),
      if_neg (by intro hx; rw [hC] at hx; exact absurd hx (by decide)),
      if_neg (by omega), if_neg (by omega), if_pos hC]
    exact ⟨rfl, rfl⟩
  · intro s2 now hcmd
    simp [motor_process, hcmd, motor_down, motor_start_common]

/-- C10 witness: go-to-location 0x70 with payload 3 on a state at location 0
computes target 6 and enqueues MotorDown; a state holding MotorDown starts
moving down. -/
theorem goto_direction_choice_witness :
    ((handle_command cW envW base 0x70 3 txW).st.target_location =
        (((((0x70 &&& 0x0f) <<< 8) + 3) <<< 1 : Nat) : Int) ∧
      (handle_command cW envW base 0x70 3 txW).st.command =
        (if (((((0x70 &&& 0x0f) <<< 8) + 3) <<< 1 : Nat) : Int) <
            base.location then .MotorUp else .MotorDown)) ∧
    ((motor_process 0 { base with command := .MotorDown }).status = .Moving ∧
      (motor_process 0 { base with command := .MotorDown }).direction =
        .Down) := by
  have h := goto_direction_choice cW envW base 0x70 3 txW (by decide)
    (by decide)
  exact ⟨h.2.2.1 (by decide), h.2.2.2 _ 0 rfl⟩

end Fyrtur
